import Mathlib

/-!
Verification of the `mcp-tool-filtering/app.py` semantic-cache and
vector tool-filtering pipeline from the redis-mcp-demo repository.

Strings are modelled as `List Char` (Python `str` is a sequence of
characters); Python's `str.lower`, `str.strip`, `startswith`, `endswith`
and the substring operator `in` are modelled by the executable functions
below.  Vectors are `List ℚ` (float entries abstracted to rationals:
no claim depends on floating-point rounding).  External effects (the
sentence-transformer encoder, Redis queries, the OpenAI call) are
parameters of an `Env` structure: each is a function giving the outcome
of the corresponding call, with `Option`/`Except` encoding the
raised-exception case.
-/

/-- Python whitespace characters for `str.strip` (ASCII range; the demo's
queries are ASCII). -/
def isPySpace (c : Char) : Bool :=
  c = ' ' || c = '\t' || c = '\n' || c = '\x0d' || c = '\x0b' || c = '\x0c'

/-- Model of Python `str.lower` (ASCII case folding, as used on the
ASCII keyword lists of the source). -/
def pyLower (s : List Char) : List Char := s.map Char.toLower

/-- Model of Python `str.strip`: remove leading and trailing whitespace. -/
def pyStrip (s : List Char) : List Char :=
  ((s.dropWhile isPySpace).reverse.dropWhile isPySpace).reverse

/-- Model of Python's substring test `needle in hay`. -/
def containsSub (needle : List Char) : List Char → Bool
  | [] => needle.isEmpty
  | c :: h => needle.isPrefixOf (c :: h) || containsSub needle h

/-- Model of Python `s.endswith("?")`. -/
def endsWithQmark (s : List Char) : Bool := s.getLast? == some '?'

/-- The `info_keywords` list of `is_information_request`
(app.py lines 924-928). -/
def infoKeywords : List (List Char) :=
  ["get".data, "search".data, "find".data, "show".data, "list".data,
   "display".data, "what".data, "where".data, "when".data, "why".data,
   "how".data, "which".data, "who".data, "tell me".data, "give me".data,
   "fetch".data, "retrieve".data, "look up".data]

/-- The `write_keywords` list of `is_write_operation` (app.py line 1023). -/
def writeKeywords : List (List Char) :=
  ["create".data, "send".data, "update".data, "add".data, "delete".data,
   "draft and send".data]

/-- `is_information_request` (app.py lines 919-939): lowers and strips the
query, returns true when the result starts with an info keyword, contains
one surrounded by spaces, or ends with a question mark. -/
def is_information_request (query : List Char) : Bool :=
  let query_lower := pyStrip (pyLower query)
  (infoKeywords.any fun kw =>
      kw.isPrefixOf query_lower ||
      containsSub (' ' :: (kw ++ [' '])) (' ' :: (query_lower ++ [' '])))
    || endsWithQmark query_lower

/-- `is_write_operation` (app.py lines 1021-1024): any write keyword occurs
as a substring of the lowercased query. -/
def is_write_operation (query : List Char) : Bool :=
  writeKeywords.any fun kw => containsSub kw (pyLower query)

example : is_information_request ("What tickets are open?".data) = true := by decide
example : is_information_request ("create a ticket".data) = false := by decide
example : is_write_operation ("What is the shipping address?".data) = true := by decide
example : is_write_operation ("find open tickets".data) = false := by decide

/-!
## Embedding cache (`ToolEmbeddings.generate_embedding`, app.py lines 107-135)

The cache is a Python dict keyed by the md5 hex digest of the text; dicts
preserve insertion order, so `next(iter(d))` is the oldest-inserted key.
We model the dict as an insertion-ordered association list (head = oldest).
The md5 digest and the sentence-transformer encoder are external: they are
parameters (`md5`, and `encode` whose `none` outcome models an encoder
exception).  Vector payloads are an arbitrary type `V`.  Exceptions are
surfaced as `Except` errors (state unchanged, as a raised Python exception
leaves the dict unmodified here).
-/

/-- Exceptions raised by the modelled Python code. -/
inductive PyExc where
  | http (status : Nat) (detail : List Char)
  | runtimeErr (msg : List Char)
  | valueErr (msg : List Char)
  | otherExc (msg : List Char)
  deriving DecidableEq, Repr

/-- Model of Python `str(e)` used when an exception is interpolated into a
message: the carried detail text. -/
def PyExc.msg : PyExc → List Char
  | .http _ d => d
  | .runtimeErr m => m
  | .valueErr m => m
  | .otherExc m => m

/-- `ToolEmbeddings.generate_embedding` (app.py lines 107-135).
Rejects empty/whitespace text; on cache hit returns the cached vector
unchanged; on miss runs the encoder (failure raises, line 135), then if the
dict is at capacity deletes the oldest-inserted key (lines 126-129; on an
empty dict at capacity 0, `next(iter({}))` raises `StopIteration`, caught by
line 134 and re-raised as `RuntimeError`), then appends the new entry. -/
def generate_embedding {V : Type} (md5 : List Char → List Char)
    (encode : List Char → Option V) (maxCacheSize : Nat)
    (cache : List (List Char × V)) (text : List Char) :
    Except PyExc (V × List (List Char × V)) :=
  if text.isEmpty || (pyStrip text).isEmpty then
    .error (.valueErr ("Text cannot be empty for embedding generation".data))
  else
    let cache_key := md5 text
    match cache.lookup cache_key with
    | some v => .ok (v, cache)
    | none =>
      match encode text with
      | none => .error (.runtimeErr ("SentenceTransformer embedding failed".data))
      | some emb =>
        if maxCacheSize ≤ cache.length then
          match cache with
          | [] => .error (.runtimeErr ("SentenceTransformer embedding failed".data))
          | _ :: rest => .ok (emb, rest ++ [(cache_key, emb)])
        else .ok (emb, cache ++ [(cache_key, emb)])

/-- A sequence of `generate_embedding` calls threading the cache; a raised
exception propagates to that call's caller and leaves the cache unchanged. -/
def embedMany {V : Type} (md5 : List Char → List Char)
    (encode : List Char → Option V) (maxCacheSize : Nat) :
    List (List Char) → List (List Char × V) → List (List Char × V)
  | [], cache => cache
  | t :: ts, cache =>
    match generate_embedding md5 encode maxCacheSize cache t with
    | .error _ => embedMany md5 encode maxCacheSize ts cache
    | .ok (_, cache') => embedMany md5 encode maxCacheSize ts cache'

/-!
## LLM tool selection: response parsing (`LLMService.select_relevant_tools`,
app.py lines 315-384)

The network call itself is external; what is modelled is everything the
code does with the returned text: markdown-fence stripping, `json.loads`
(a parameter, with `none` modelling `json.JSONDecodeError`), the
non-list guard, resolution of names to tool objects (first exact match,
unmatched silently dropped), the empty-selection fallback to the first
`min(3, available)` tools, and the parse-error fallback to the first 5
tools with an `error` field.
-/

/-- A tool object as passed around by the selector (the dict fields that
participate in selection; the large static description/schema text does not
influence any modelled decision and is elided). -/
structure ToolObj where
  name : List Char
  server : List Char
  ty : List Char
  deriving DecidableEq, Repr

/-- Python values produced by `json.loads` as far as the selector
distinguishes them: a JSON array, a JSON string, or anything else. -/
inductive PyJson where
  | arr (elems : List PyJson) : PyJson
  | str (s : List Char) : PyJson
  | otherVal : PyJson

/-- The `isinstance(…, list)` guard (app.py lines 328-329): the parsed
value's elements when it is a JSON array, `[]` otherwise. -/
def PyJson.elems : PyJson → List PyJson
  | .arr ns => ns
  | _ => []

/-- Markdown code-fence cleanup (app.py lines 317-323): strip, drop a
leading "```json" (7 chars), drop a trailing "```" (3 chars), strip again. -/
def cleanLLMText (text : List Char) : List Char :=
  let c := pyStrip text
  let c := if ("```json".data).isPrefixOf c then c.drop 7 else c
  let c := if ("```".data).isSuffixOf c then c.take (c.length - 3) else c
  pyStrip c

/-- Name resolution (app.py lines 332-337): for each parsed name, append the
first tool whose `name` equals it; a non-string JSON element equals no
Python string, and unmatched names are dropped. -/
def resolveToolNames (names : List PyJson) (all_tools : List ToolObj) :
    List ToolObj :=
  names.filterMap fun n =>
    match n with
    | .str s => all_tools.find? fun t => t.name == s
    | _ => none

/-- Outcome of the parsing phase of `select_relevant_tools`: the selected
tools and whether the `"error"` field was set in the returned dict. -/
structure SelectOutcome where
  tools : List ToolObj
  hasError : Bool
  deriving DecidableEq, Repr

/-- The parsing phase of `select_relevant_tools` (app.py lines 315-384),
parameterised by the behaviour `jsonLoads` of Python's `json.loads` on the
(cleaned) response text: parse failure falls back to the first 5 tools and
sets the error field (lines 370-384); a non-list parse is replaced by `[]`
(lines 328-329); an empty resolved selection with tools available falls
back to the first `min(3, available)` tools (lines 340-342). -/
def selectFromResponse (jsonLoads : List Char → Option PyJson)
    (responseText : List Char) (all_tools : List ToolObj) : SelectOutcome :=
  match jsonLoads (cleanLLMText responseText) with
  | none => { tools := all_tools.take 5, hasError := true }
  | some v =>
    let selected_tool_names := v.elems
    let selected_tools := resolveToolNames selected_tool_names all_tools
    let selected_tools :=
      if selected_tools.length = 0 ∧ 0 < all_tools.length then
        all_tools.take (min 3 all_tools.length)
      else selected_tools
    { tools := selected_tools, hasError := false }

/-!
## The request pipeline (app.py lines 771-1295)

The pipeline's external calls are collected in an `Env`: the embedding
service (`embed`, with `none` modelling a raised encoder exception — the
outcome of `tool_embeddings.generate_embedding` on a query), the two
RedisVL index queries, the global flags/`tool_lookup_cache`, the outcome
of the (network-bound) `select_relevant_tools` call, Python's randomized
`hash()` on strings, and the `PERFORMANCE_CONFIG` values.  Wall-clock
timing fields (latency, `vector_search_time`) and numeric display
rounding are elided: no modelled claim mentions them.
-/

/-- The `PERFORMANCE_CONFIG` entries read by the pipeline (config.py is
not part of the analysed sources; its values are parameters). -/
structure PerfConfig where
  enable_semantic_cache : Bool
  cache_similarity_threshold : ℚ
  cache_ttl : Nat
  vector_dim : Nat
  deriving DecidableEq, Repr

/-- A hash returned by the `semantic_cache` RedisVL index for a cached
query record (fields used by `check_semantic_cache`; `tools_used` is
carried as the list that `json.loads` recovers on app.py line 905 —
a malformed stored value would raise there and be caught by the same
outer handler modelled below). -/
structure CacheDoc where
  query : List Char
  response : List Char
  tools_used : List (List Char)
  cached_at : List Char
  vector_distance : ℚ
  deriving DecidableEq, Repr

/-- A hash returned by the `mcp_tools` RedisVL index for a tool
(fields used by `vector_search_tools`). -/
structure ToolDoc where
  name : List Char
  description : List Char
  server : List Char
  ty : List Char
  vector_distance : ℚ
  deriving DecidableEq, Repr

/-- Result dict of `select_relevant_tools` as consumed by the two process
functions (latency elided). -/
structure LLMOut where
  tools : List ToolObj
  tokens : Nat
  cost : ℚ
  deriving DecidableEq, Repr

/-- The environment of one request: configuration, global service state and
the outcomes of every external call the pipeline makes. -/
structure Env where
  cfg : PerfConfig
  is_redis_connected : Bool
  has_cache_index : Bool
  embed : List Char → Option (List ℚ)
  cacheSearch : List ℚ → Except PyExc (List CacheDoc)
  toolSearch : List ℚ → Nat → Except PyExc (List ToolDoc)
  llm_ok : Bool
  llmSelect : List Char → List ToolObj → Except PyExc LLMOut
  tool_lookup : List Char → Option ToolObj
  hashQ : List Char → Int
  allTools : List ToolObj

/-- Python `int()` truncation toward zero on a rational. -/
def pyInt (x : ℚ) : Int := if 0 ≤ x then ⌊x⌋ else -⌊-x⌋

/-- The dict returned by `check_semantic_cache` on a hit
(app.py lines 900-906). -/
structure CacheHitInfo where
  response : List Char
  similarity : Int
  cached_at : List Char
  original_query : List Char
  tools_used : List (List Char)
  deriving DecidableEq, Repr

/-- `check_semantic_cache` (app.py lines 854-916).  Fast-path misses when
caching is disabled, the query is not an information request, or Redis /
the cache index is unavailable.  Otherwise: embed the query (an encoder
failure is re-raised as `RuntimeError` on line 877), k=1 nearest-neighbour
search, hit iff similarity `1 - vector_distance` reaches the threshold.
The whole block sits in the `try` of line 870 whose `except` (lines
914-916) turns ANY exception — including the line-877 re-raise — into a
returned `None`; the function therefore never raises. -/
def check_semantic_cache (env : Env) (query : List Char) :
    Except PyExc (Option CacheHitInfo) :=
  if env.cfg.enable_semantic_cache = false then .ok none
  else if is_information_request query = false then .ok none
  else if ¬(env.is_redis_connected ∧ env.has_cache_index) then .ok none
  else
    let body : Except PyExc (Option CacheHitInfo) :=
      match env.embed query with
      | none => .error (.runtimeErr ("Cannot generate cache embedding for query".data))
      | some query_embedding =>
        match env.cacheSearch query_embedding with
        | .error e => .error e
        | .ok [] => .ok none
        | .ok (result :: _) =>
          let similarity : ℚ := 1 - result.vector_distance
          if env.cfg.cache_similarity_threshold ≤ similarity then
            .ok (some { response := result.response,
                        similarity := pyInt (similarity * 100),
                        cached_at := result.cached_at,
                        original_query := result.query,
                        tools_used := result.tools_used })
          else .ok none
    match body with
    | .error _ => .ok none
    | .ok v => .ok v

/-- A processed entry of the `vector_search_tools` result list (similarity
display rounding to 3 decimals and timing fields elided). -/
structure SelTool where
  name : List Char
  description : List Char
  server : List Char
  ty : List Char
  similarity : ℚ
  deriving DecidableEq, Repr

/-- `vector_search_tools` (app.py lines 771-852).  Embeds the query (an
encoder failure is re-raised as `RuntimeError` on line 789), returns `[]`
when the embedding has the wrong dimension (line 794), otherwise runs the
top-k RedisVL query and converts distances to similarities.  The whole
body sits in the `try` of line 777 whose `except` (lines 844-852) turns
ANY exception — including the line-789 re-raise — into a returned `[]`;
the function therefore never raises. -/
def vector_search_tools (env : Env) (query : List Char) (top_k : Nat := 3) :
    Except PyExc (List SelTool) :=
  let body : Except PyExc (List SelTool) :=
    match env.embed query with
    | none => .error (.runtimeErr ("Cannot generate embedding for query".data))
    | some query_embedding =>
      if query_embedding.length ≠ env.cfg.vector_dim then .ok []
      else
        match env.toolSearch query_embedding top_k with
        | .error e => .error e
        | .ok results =>
          .ok (results.map fun r =>
            { name := r.name, description := r.description, server := r.server,
              ty := r.ty, similarity := 1 - r.vector_distance })
  match body with
  | .error _ => .ok []
  | .ok v => .ok v

/-- The slot index of the Redis cache key built by `store_in_cache`
(app.py line 969): `abs(hash(query)) % 10000`. -/
def cacheSlot (hashQ : List Char → Int) (query : List Char) : Nat :=
  (hashQ query).natAbs % 10000

/-- The Redis cache key of `store_in_cache` (app.py line 969):
`f"supportAssistant:cache:{abs(hash(query)) % 10000}"`. -/
def cacheKey (hashQ : List Char → Int) (query : List Char) : List Char :=
  ("supportAssistant:cache:".data) ++ (Nat.repr (cacheSlot hashQ query)).data

/-- The write `store_in_cache` issues to Redis: `hset` of the record at
`key` followed by `expire(key, ttl)` (app.py lines 983-984). -/
structure StoreOp where
  key : List Char
  query : List Char
  response : List Char
  tools_used : List (List Char)
  ttl : Nat
  deriving DecidableEq, Repr

/-- `store_in_cache` (app.py lines 941-989): skips (returns without
writing) when caching is disabled, the query is not an information
request, or Redis / the cache index is unavailable; embeds the query
(failure re-raised on line 966 but swallowed by the outer `except` of
line 988, hence no write); otherwise writes the record under the
hash-derived key with TTL `PERFORMANCE_CONFIG["cache_ttl"]`.  The result
is the issued write, `none` when nothing is written. -/
def store_in_cache (env : Env) (query response : List Char)
    (tools_used : List (List Char)) : Option StoreOp :=
  if env.cfg.enable_semantic_cache = false then none
  else if is_information_request query = false then none
  else if ¬(env.is_redis_connected ∧ env.has_cache_index) then none
  else
    match env.embed query with
    | none => none
    | some _ =>
      some { key := cacheKey env.hashQ query, query := query,
             response := response, tools_used := tools_used,
             ttl := env.cfg.cache_ttl }

/-- `format_tool_selection_response` (app.py lines 992-1019); the numeric
percentage suffix and upper-casing are elided (no claim reads them). -/
def format_tool_selection_response (selectedCount : Nat) (method : List Char)
    (totalTools : Nat) : List Char :=
  if selectedCount = 0 then method ++ (": No tools selected".data)
  else method ++ (": ".data) ++ (Nat.repr selectedCount).data ++ (" of ".data)
         ++ (Nat.repr totalTools).data ++ (" tools selected".data)

/-- The `ChatResponse` fields produced by the process functions (timing
fields elided). -/
structure ChatResponseM where
  response : List Char
  tokens : Nat
  cost : ℚ
  tools_count : Nat
  cache_status : Option (List Char)
  similarity : Option Int
  original_query : Option (List Char)
  tools_used : List (List Char)
  filtered_tools : List (List Char)
  deriving DecidableEq, Repr

/-- Side effects of one `process_optimized_query` run: whether
`select_relevant_tools` was reached and whether / what `store_in_cache`
was invoked with. -/
structure OptTrace where
  llmCalled : Bool
  storeInvoked : Bool
  storeOp : Option StoreOp
  deriving DecidableEq, Repr

/-- `process_optimized_query` (app.py lines 1088-1199).  503 when the LLM
service is down (line 1103, raised before anything else); cache hit short
circuit (lines 1120-1137) returning zero tokens/cost/tools and status HIT
with no LLM call; otherwise vector pre-filter, lookup-cache resolution,
LLM call (lines 1156-1199: a raised exception becomes
`HTTPException(500, str(e))`), conditional store (write operations are
not stored, lines 1168-1170) and status BYPASS/MISS (line 1173). -/
def process_optimized_query (env : Env) (query : List Char) :
    Except PyExc (ChatResponseM × OptTrace) :=
  if env.llm_ok = false then
    .error (.http 503 ("LLM service not available".data))
  else
    match check_semantic_cache env query with
    | .error e => .error e
    | .ok (some cached_result) =>
      .ok ({ response := cached_result.response, tokens := 0, cost := 0,
             tools_count := 0, cache_status := some ("HIT".data),
             similarity := some cached_result.similarity,
             original_query := some cached_result.original_query,
             tools_used := [], filtered_tools := [] },
           { llmCalled := false, storeInvoked := false, storeOp := none })
    | .ok none =>
      match vector_search_tools env query with
      | .error e => .error e
      | .ok vector_filtered_tools =>
        let filtered_for_llm :=
          vector_filtered_tools.filterMap fun t => env.tool_lookup t.name
        match env.llmSelect query filtered_for_llm with
        | .error e => .error (.http 500 e.msg)
        | .ok llm_result =>
          let response_text := format_tool_selection_response
            llm_result.tools.length ("optimized".data) filtered_for_llm.length
          let will_cache := !is_write_operation query
          let storeOp :=
            if will_cache then
              store_in_cache env query response_text
                (llm_result.tools.map (·.name))
            else none
          let cache_status :=
            if is_write_operation query then some ("BYPASS".data)
            else some ("MISS".data)
          .ok ({ response := response_text, tokens := llm_result.tokens,
                 cost := llm_result.cost,
                 tools_count := vector_filtered_tools.length,
                 cache_status := cache_status, similarity := none,
                 original_query := none,
                 tools_used := llm_result.tools.map (·.name),
                 filtered_tools := vector_filtered_tools.map (·.name) },
               { llmCalled := true, storeInvoked := will_cache,
                 storeOp := storeOp })

/-- `process_baseline_query` (app.py lines 1026-1086): 503 when the LLM
service is down, else one LLM call over the full catalog; a raised
exception becomes `HTTPException(500, str(e))` (line 1086); the response
reports all tools sent and status BYPASS. -/
def process_baseline_query (env : Env) (query : List Char) :
    Except PyExc ChatResponseM :=
  if env.llm_ok = false then
    .error (.http 503 ("LLM service not available".data))
  else
    match env.llmSelect query env.allTools with
    | .error e => .error (.http 500 e.msg)
    | .ok llm_result =>
      .ok { response := format_tool_selection_response
              llm_result.tools.length ("baseline".data) env.allTools.length,
            tokens := llm_result.tokens, cost := llm_result.cost,
            tools_count := env.allTools.length,
            cache_status := some ("BYPASS".data), similarity := none,
            original_query := none,
            tools_used := llm_result.tools.map (·.name), filtered_tools := [] }

/-- Request body of `POST /api/query`. -/
structure ChatRequestM where
  query : List Char
  panel : List Char
  deriving DecidableEq, Repr

/-- The `POST /api/query` handler `process_query` (app.py lines
1277-1295): dispatch on `panel`, a non-matching panel raises
`HTTPException(400)` inside the `try`; the generic `except Exception`
(lines 1293-1295) catches every exception raised in the body — the 400,
the 503s and the wrapped 500s included — and re-raises
`HTTPException(500, str(e))`. -/
def process_query (env : Env) (request : ChatRequestM) :
    Except PyExc ChatResponseM :=
  let body : Except PyExc ChatResponseM :=
    if request.panel = ("baseline".data) then
      process_baseline_query env request.query
    else if request.panel = ("optimized".data) then
      (process_optimized_query env request.query).map Prod.fst
    else .error (.http 400 ("Invalid panel type".data))
  match body with
  | .error e => .error (.http 500 e.msg)
  | .ok r => .ok r

/-!
## Auxiliary definitions: concrete environments and data for witnesses,
and word-level vocabulary for the keyword-classifier theorems
-/

deriving instance DecidableEq for Except

/-- A demo tool object: the catalog entry `jira.get_issue` of
`tools_mcp_format.py` (line 731). -/
def demoTool : ToolObj :=
  { name := "jira.get_issue".data, server := "jira".data, ty := "read".data }

/-- A cached-query record as returned by the cache index: an earlier
information request at vector distance 0 from the probe. -/
def cachedDoc : CacheDoc :=
  { query := "show me open tickets".data, response := "cached".data,
    tools_used := [], cached_at := "t".data, vector_distance := 0 }

/-- Environment in which every gate is open and the cache search finds
`cachedDoc` at similarity 1 ≥ threshold 0: the cache check hits. -/
def hitEnv : Env :=
  { cfg := { enable_semantic_cache := true, cache_similarity_threshold := 0,
             cache_ttl := 3600, vector_dim := 1 },
    is_redis_connected := true,
    has_cache_index := true,
    embed := fun _ => some [0],
    cacheSearch := fun _ => .ok [cachedDoc],
    toolSearch := fun _ _ => .ok [],
    llm_ok := true,
    llmSelect := fun _ tools => .ok { tools := tools.take 1, tokens := 10, cost := 0 },
    tool_lookup := fun _ => none,
    hashQ := fun _ => 0,
    allTools := [demoTool] }

/-- The hit record produced by `check_semantic_cache` in `hitEnv`. -/
def hitInfo : CacheHitInfo :=
  { response := "cached".data, similarity := 100, cached_at := "t".data,
    original_query := "show me open tickets".data, tools_used := [] }

/-- `hitEnv` with a failing embedding service: `generate_embedding` raises
on every live query. -/
def embedFailEnv : Env := { hitEnv with embed := fun _ => none }

/-- `hitEnv` with the LLM service unavailable. -/
def noLlmEnv : Env := { hitEnv with llm_ok := false }

/-- The first six tools of the `jira` server in `tools_mcp_format.py`
(lines 534-946), in catalog order. -/
def demoCatalog : List ToolObj :=
  [{ name := "jira.search_issues".data, server := "jira".data, ty := "read".data },
   demoTool,
   { name := "jira.create_issue".data, server := "jira".data, ty := "write".data },
   { name := "jira.update_issue".data, server := "jira".data, ty := "write".data },
   { name := "jira.transition_issue".data, server := "jira".data, ty := "write".data },
   { name := "jira.get_comments".data, server := "jira".data, ty := "read".data }]

/-- A concrete `json.loads` behaviour for the literal model outputs used
in the spec's examples: `["jira.get_issue"]` parses to a one-element
array, `[]` to an empty array, anything else (e.g. `not json`) fails. -/
def demoLoads : List Char → Option PyJson := fun s =>
  if s = ("[\"jira.get_issue\"]".data) then
    some (.arr [.str ("jira.get_issue".data)])
  else if s = ("[]".data) then some (.arr [])
  else none

/-- The cache key determined by a slot number. -/
def mkCacheKey (n : Nat) : List Char :=
  ("supportAssistant:cache:".data) ++ (Nat.repr n).data

/-- A Redis hash store keyed by cache key; `hset` on an existing key
overwrites the record (all fields are always written). -/
def applyStore (m : List Char → Option StoreOp) (op : StoreOp) :
    List Char → Option StoreOp :=
  fun k => if k = op.key then some op else m k

/-- The individual words occurring in the configured write keywords
(`"draft and send"` contributes `draft`, `and`, `send`). -/
def writeKeywordWords : List (List Char) :=
  ["create".data, "send".data, "update".data, "add".data, "delete".data,
   "draft".data, "and".data]

/-- Words joined by single spaces (the shape of a query consisting only
of keywords). -/
def joinWords : List (List Char) → List Char
  | [] => []
  | [w] => w
  | w :: v :: ws => w ++ ' ' :: joinWords (v :: ws)

/-- `' ' :: (joinWords ws ++ [' '])`, computed word by word. -/
def spacedCat : List (List Char) → List Char
  | [] => [' ']
  | w :: ws => ' ' :: (w ++ spacedCat ws)

/-!
## Helper lemmas and claim theorems
-/

/-- The Bool substring test agrees with `List.IsInfix`. -/
theorem containsSub_iff {n h : List Char} : containsSub n h = true ↔ n <:+: h := by
  induction h with
  | nil =>
    simp [containsSub, List.isEmpty_iff]
  | cons c h ih =>
    simp [containsSub, List.infix_cons_iff, ih]

/-- In `hitEnv`, any information request produces a cache hit. -/
theorem check_hitEnv_eval (q : List Char) (h : is_information_request q = true) :
    check_semantic_cache hitEnv q = .ok (some hitInfo) := by
  have h100 : pyInt (100:ℚ) = 100 := by norm_num [pyInt]
  have hle : ((0:ℚ) ≤ 1 - 0) := by norm_num
  simp [check_semantic_cache, hitEnv, h, cachedDoc, hitInfo, hle, h100]

/-- Neither lookup function can surface an error: their outer handlers
turn every raised exception into a miss / empty list. -/
theorem check_semantic_cache_never_raises (env : Env) (q : List Char) :
    ∃ v, check_semantic_cache env q = .ok v := by
  unfold check_semantic_cache
  dsimp only
  repeat' split
  all_goals exact ⟨_, rfl⟩

theorem vector_search_tools_never_raises (env : Env) (q : List Char) (top_k : Nat) :
    ∃ l, vector_search_tools env q top_k = .ok l := by
  unfold vector_search_tools
  dsimp only
  repeat' split
  all_goals exact ⟨_, rfl⟩

/-- C1 (amended): embedding-generation failure on a live request is NOT
raised to the caller: the re-raised `RuntimeError` is caught by the same
function's outer `except`, so — like every other internal error — it
degrades silently: `check_semantic_cache` returns a miss (`None`) and
`vector_search_tools` returns `[]`; neither function ever raises. -/
theorem C1_all_internal_errors_silent :
    (∀ (env : Env) (q : List Char) (top_k : Nat), env.embed q = none →
        check_semantic_cache env q = .ok none ∧
        vector_search_tools env q top_k = .ok []) ∧
    (∀ (env : Env) (q : List Char), ∃ v, check_semantic_cache env q = .ok v) ∧
    (∀ (env : Env) (q : List Char) (top_k : Nat),
        ∃ l, vector_search_tools env q top_k = .ok l) := by
  refine ⟨fun env q top_k hfail => ⟨?_, ?_⟩,
          check_semantic_cache_never_raises,
          vector_search_tools_never_raises⟩
  · unfold check_semantic_cache
    dsimp only
    repeat' split
    any_goals rfl
    all_goals simp_all
  · simp [vector_search_tools, hfail]

theorem C1_witness :
    check_semantic_cache embedFailEnv ("What tickets are open?".data) = .ok none ∧
    vector_search_tools embedFailEnv ("What tickets are open?".data) 3 = .ok [] :=
  C1_all_internal_errors_silent.1 embedFailEnv _ 3 rfl

/-- C1 counterexample: a live request whose embedding generation fails,
with every cache gate open; contrary to the claim, nothing is raised to
the caller — the cache check returns a miss and the pre-filter returns
an empty list. -/
theorem C1_counterexample :
    embedFailEnv.embed ("What tickets are open?".data) = none ∧
    is_information_request ("What tickets are open?".data) = true ∧
    embedFailEnv.cfg.enable_semantic_cache = true ∧
    embedFailEnv.is_redis_connected = true ∧
    embedFailEnv.has_cache_index = true ∧
    check_semantic_cache embedFailEnv ("What tickets are open?".data) = .ok none ∧
    vector_search_tools embedFailEnv ("What tickets are open?".data) 3 = .ok [] ∧
    (∀ e : PyExc,
      check_semantic_cache embedFailEnv ("What tickets are open?".data) ≠ .error e) ∧
    (∀ e : PyExc,
      vector_search_tools embedFailEnv ("What tickets are open?".data) 3 ≠ .error e) := by
  have hc : check_semantic_cache embedFailEnv ("What tickets are open?".data)
      = .ok none := by decide
  have hv : vector_search_tools embedFailEnv ("What tickets are open?".data) 3
      = .ok [] := by decide
  refine ⟨rfl, by decide, rfl, rfl, rfl, hc, hv, ?_, ?_⟩
  · intro e h; rw [hc] at h; exact Except.noConfusion h
  · intro e h; rw [hv] at h; exact Except.noConfusion h

/-- C3: a semantic-cache hit makes `process_optimized_query` return
immediately with zero tokens, zero cost, zero tools, status `"HIT"`, and
no LLM call (and no cache store). -/
theorem C3_cache_hit_short_circuit (env : Env) (q : List Char)
    (hit : CacheHitInfo) (hllm : env.llm_ok = true)
    (hhit : check_semantic_cache env q = .ok (some hit)) :
    process_optimized_query env q =
      .ok ({ response := hit.response, tokens := 0, cost := 0, tools_count := 0,
             cache_status := some ("HIT".data), similarity := some hit.similarity,
             original_query := some hit.original_query, tools_used := [],
             filtered_tools := [] },
           { llmCalled := false, storeInvoked := false, storeOp := none }) := by
  simp [process_optimized_query, hllm, hhit]

theorem C3_witness :
    process_optimized_query hitEnv ("What tickets are open?".data) =
      .ok ({ response := "cached".data, tokens := 0, cost := 0, tools_count := 0,
             cache_status := some ("HIT".data), similarity := some 100,
             original_query := some ("show me open tickets".data),
             tools_used := [], filtered_tools := [] },
           { llmCalled := false, storeInvoked := false, storeOp := none }) :=
  C3_cache_hit_short_circuit hitEnv _ hitInfo rfl (check_hitEnv_eval _ (by decide))

/-- C2 counterexample: `"What is the shipping address?"` is classified as
a write operation (substring `"add"` inside `"address"`) but also as an
information request (starts with `"what"`, ends with `"?"`); the cache
check gates only on the latter, so with a sufficiently similar cached
record present it returns a hit for this write query. -/
theorem C2_counterexample :
    is_write_operation ("What is the shipping address?".data) = true ∧
    check_semantic_cache hitEnv ("What is the shipping address?".data)
      = .ok (some hitInfo) :=
  ⟨by decide, check_hitEnv_eval _ (by decide)⟩

/-- C2 (amended): a query classified as a write operation is never stored
(the store call is guarded by `not is_write_operation(query)`), but the
cache check tests only the information-request heuristic, so a write
query that also matches that heuristic can still produce a cache hit. -/
theorem C2_write_never_stored_but_can_hit :
    (∀ (env : Env) (q : List Char) (r : ChatResponseM) (tr : OptTrace),
        is_write_operation q = true →
        process_optimized_query env q = .ok (r, tr) →
        tr.storeInvoked = false ∧ tr.storeOp = none) ∧
    (∃ (env : Env) (q : List Char) (h : CacheHitInfo),
        is_write_operation q = true ∧
        check_semantic_cache env q = .ok (some h)) := by
  constructor
  · intro env q r tr hw hok
    unfold process_optimized_query at hok
    dsimp only at hok
    repeat' split at hok
    all_goals first
      | exact Except.noConfusion hok
      | (simp only [Except.ok.injEq, Prod.mk.injEq] at hok
         obtain ⟨h1, h2⟩ := hok
         subst h2
         simp_all)
  · exact ⟨hitEnv, ("What is the shipping address?".data), hitInfo,
      by decide, check_hitEnv_eval _ (by decide)⟩

theorem C2_witness :
    is_write_operation ("delete the ticket".data) = true ∧
    ({ llmCalled := true, storeInvoked := false, storeOp := none } : OptTrace).storeInvoked
      = false :=
  ⟨by decide,
    (C2_write_never_stored_but_can_hit.1 hitEnv ("delete the ticket".data)
      { response := "optimized: No tools selected".data, tokens := 10, cost := 0,
        tools_count := 0, cache_status := some ("BYPASS".data), similarity := none,
        original_query := none, tools_used := [], filtered_tools := [] }
      { llmCalled := true, storeInvoked := false, storeOp := none }
      (by decide) (by decide)).1⟩

/-- Substring containment is transitive through an intermediate string. -/
theorem containsSub_of_sub_contains {a b h : List Char}
    (hab : containsSub a b = true) (hbh : containsSub b h = true) :
    containsSub a h = true := by
  rw [containsSub_iff] at hab hbh ⊢
  exact hab.trans hbh

/-- C9 counterexample: `"What is the shipping address?"` contains
`"address"` (hence the substring `"add"`) and is classified as a write
operation, yet on a cache hit the optimized path returns status `"HIT"`,
not `"BYPASS"`. -/
theorem C9_counterexample :
    containsSub ("address".data)
      (pyLower ("What is the shipping address?".data)) = true ∧
    is_write_operation ("What is the shipping address?".data) = true ∧
    process_optimized_query hitEnv ("What is the shipping address?".data) =
      .ok ({ response := "cached".data, tokens := 0, cost := 0, tools_count := 0,
             cache_status := some ("HIT".data), similarity := some 100,
             original_query := some ("show me open tickets".data),
             tools_used := [], filtered_tools := [] },
           { llmCalled := false, storeInvoked := false, storeOp := none }) ∧
    (some ("HIT".data) : Option (List Char)) ≠ some ("BYPASS".data) := by
  refine ⟨by decide, by decide, ?_, by decide⟩
  have hhit := check_hitEnv_eval ("What is the shipping address?".data) (by decide)
  unfold process_optimized_query
  rw [hhit]
  simp [hitEnv, hitInfo]

/-- C9 (amended): `is_write_operation` is true exactly when one of the six
write keywords occurs as a substring of the lowercased query (so queries
containing `"address"` or `"sending"` are classified as writes), and on
the cache-miss path of `process_optimized_query` such queries get status
`"BYPASS"`; a cache hit, however, returns `"HIT"` even for a write query. -/
theorem C9_write_substring_semantics :
    (∀ q : List Char, is_write_operation q = true ↔
        ∃ kw ∈ writeKeywords, kw <:+: pyLower q) ∧
    (∀ q : List Char, containsSub ("address".data) (pyLower q) = true →
        is_write_operation q = true) ∧
    (∀ q : List Char, containsSub ("sending".data) (pyLower q) = true →
        is_write_operation q = true) ∧
    (∀ (env : Env) (q : List Char) (r : ChatResponseM) (tr : OptTrace),
        is_write_operation q = true →
        check_semantic_cache env q = .ok none →
        process_optimized_query env q = .ok (r, tr) →
        r.cache_status = some ("BYPASS".data)) := by
  refine ⟨?_, ?_, ?_, ?_⟩
  · intro q
    simp [is_write_operation, containsSub_iff]
  · intro q h
    have h2 : containsSub ("add".data) (pyLower q) = true :=
      containsSub_of_sub_contains (by decide) h
    unfold is_write_operation
    rw [List.any_eq_true]
    exact ⟨"add".data, by decide, h2⟩
  · intro q h
    have h2 : containsSub ("send".data) (pyLower q) = true :=
      containsSub_of_sub_contains (by decide) h
    unfold is_write_operation
    rw [List.any_eq_true]
    exact ⟨"send".data, by decide, h2⟩
  · intro env q r tr hw hmiss hok
    unfold process_optimized_query at hok
    dsimp only at hok
    repeat' split at hok
    all_goals first
      | exact Except.noConfusion hok
      | (simp only [Except.ok.injEq, Prod.mk.injEq] at hok
         obtain ⟨h1, h2⟩ := hok
         subst h1
         subst h2
         simp_all)

theorem C9_witness :
    is_write_operation ("what is the address".data) = true ∧
    ({ response := "optimized: No tools selected".data, tokens := 10, cost := 0,
       tools_count := 0, cache_status := some ("BYPASS".data), similarity := none,
       original_query := none, tools_used := [],
       filtered_tools := [] } : ChatResponseM).cache_status
      = some ("BYPASS".data) :=
  ⟨C9_write_substring_semantics.2.1 _ (by decide),
   C9_write_substring_semantics.2.2.2 hitEnv ("delete the ticket".data) _
     { llmCalled := true, storeInvoked := false, storeOp := none }
     (by decide) (by decide) (by decide)⟩

/-- C10: every exception raised inside the `POST /api/query` handler —
the 400 for an invalid panel and the 503 for a missing LLM service
included — is caught by the handler's generic `except` clause and
surfaced as an HTTP 500 error. -/
theorem C10_handler_wraps_all_errors_as_500 :
    (∀ (env : Env) (req : ChatRequestM),
        (∃ r, process_query env req = .ok r) ∨
        (∃ d, process_query env req = .error (.http 500 d))) ∧
    process_query noLlmEnv { query := "q".data, panel := "bogus".data }
      = .error (.http 500 ("Invalid panel type".data)) ∧
    process_query noLlmEnv { query := "q".data, panel := "baseline".data }
      = .error (.http 500 ("LLM service not available".data)) ∧
    process_query noLlmEnv { query := "q".data, panel := "optimized".data }
      = .error (.http 500 ("LLM service not available".data)) := by
  refine ⟨?_, by decide, by decide, by decide⟩
  intro env req
  unfold process_query
  dsimp only
  split
  · exact Or.inr ⟨_, rfl⟩
  · exact Or.inl ⟨_, rfl⟩

/-- C6: on JSON parse failure the selector returns the first 5 tools with
the error field set; a parse that resolves to no tools while tools are
available yields the first `min(3, available)` tools with no error. -/
theorem C6_parse_failure_fallbacks :
    (∀ (jsonLoads : List Char → Option PyJson) (raw : List Char)
        (all_tools : List ToolObj),
        jsonLoads (cleanLLMText raw) = none →
        selectFromResponse jsonLoads raw all_tools
          = { tools := all_tools.take 5, hasError := true }) ∧
    (∀ (jsonLoads : List Char → Option PyJson) (raw : List Char)
        (all_tools : List ToolObj) (v : PyJson),
        jsonLoads (cleanLLMText raw) = some v →
        resolveToolNames v.elems all_tools = [] →
        all_tools ≠ [] →
        selectFromResponse jsonLoads raw all_tools
          = { tools := all_tools.take (min 3 all_tools.length),
              hasError := false }) := by
  constructor
  · intro jsonLoads raw all_tools h
    simp [selectFromResponse, h]
  · intro jsonLoads raw all_tools v h hres hne
    simp [selectFromResponse, h, hres, List.length_pos.mpr hne]

theorem C6_witness :
    selectFromResponse demoLoads ("not json".data) demoCatalog
      = { tools := demoCatalog.take 5, hasError := true } ∧
    selectFromResponse demoLoads ("[]".data) demoCatalog
      = { tools := demoCatalog.take (min 3 demoCatalog.length),
          hasError := false } :=
  ⟨C6_parse_failure_fallbacks.1 demoLoads _ _ rfl,
   C6_parse_failure_fallbacks.2 demoLoads _ _ (.arr []) rfl (by decide)
     (by decide)⟩

/-- C7: a parse producing a non-empty JSON array is resolved name-by-name:
an exact match picks the (first) tool object of that name, an unmatched
or non-string element is silently dropped; the selection, when non-empty,
is returned as is; in particular the literal output `["jira.get_issue"]`
over a catalog containing that tool yields exactly that tool object. -/
theorem C7_name_resolution :
    (∀ (jsonLoads : List Char → Option PyJson) (raw : List Char)
        (all_tools : List ToolObj) (ns : List PyJson),
        jsonLoads (cleanLLMText raw) = some (.arr ns) →
        resolveToolNames ns all_tools ≠ [] →
        selectFromResponse jsonLoads raw all_tools
          = { tools := resolveToolNames ns all_tools, hasError := false }) ∧
    (∀ (n : List Char) (all_tools : List ToolObj) (rest : List PyJson),
        (∀ t ∈ all_tools, t.name ≠ n) →
        resolveToolNames (.str n :: rest) all_tools
          = resolveToolNames rest all_tools) ∧
    (∀ (n : List Char) (all_tools : List ToolObj) (rest : List PyJson)
        (t : ToolObj),
        all_tools.find? (fun t' => t'.name == n) = some t →
        resolveToolNames (.str n :: rest) all_tools
          = t :: resolveToolNames rest all_tools) ∧
    selectFromResponse demoLoads ("[\"jira.get_issue\"]".data) demoCatalog
      = { tools := [demoTool], hasError := false } := by
  refine ⟨?_, ?_, ?_, by decide⟩
  · intro jsonLoads raw all_tools ns h hres
    have hlen : ¬ (resolveToolNames ns all_tools).length = 0 := by
      simpa [List.length_eq_zero] using hres
    simp [selectFromResponse, h, PyJson.elems, hlen]
  · intro n all_tools rest hnone
    have : all_tools.find? (fun t' => t'.name == n) = none := by
      rw [List.find?_eq_none]
      intro t ht
      simpa using hnone t ht
    simp [resolveToolNames, this]
  · intro n all_tools rest t h
    simp [resolveToolNames, h]

theorem C7_witness :
    selectFromResponse demoLoads ("[\"jira.get_issue\"]".data) demoCatalog
      = { tools := resolveToolNames [.str ("jira.get_issue".data)] demoCatalog,
          hasError := false } :=
  C7_name_resolution.1 demoLoads _ _ [.str ("jira.get_issue".data)] rfl
    (by decide)

/-- C8: the cache key is `"supportAssistant:cache:" ++ (|hash(query)| mod
10000)`, so there are at most 10000 slots and any hash function admits two
distinct queries sharing a key (the later store overwriting the earlier);
every record actually stored carries TTL `PERFORMANCE_CONFIG["cache_ttl"]`. -/
theorem C8_cache_key_slots_and_ttl :
    (∀ (hashQ : List Char → Int) (q : List Char),
        cacheSlot hashQ q < 10000 ∧
        cacheKey hashQ q = mkCacheKey (cacheSlot hashQ q)) ∧
    (∀ hashQ : List Char → Int, ∃ q1 q2 : List Char,
        q1 ≠ q2 ∧ cacheKey hashQ q1 = cacheKey hashQ q2) ∧
    (∀ (m : List Char → Option StoreOp) (op1 op2 : StoreOp),
        op1.key = op2.key →
        applyStore (applyStore m op1) op2 op1.key = some op2) ∧
    (∀ (env : Env) (q resp : List Char) (tools : List (List Char))
        (op : StoreOp),
        store_in_cache env q resp tools = some op →
        op.ttl = env.cfg.cache_ttl ∧ op.key = cacheKey env.hashQ q) ∧
    (∀ (env : Env) (q resp : List Char) (tools : List (List Char))
        (emb : List ℚ),
        env.cfg.enable_semantic_cache = true →
        is_information_request q = true →
        env.is_redis_connected = true → env.has_cache_index = true →
        env.embed q = some emb →
        store_in_cache env q resp tools
          = some { key := cacheKey env.hashQ q, query := q, response := resp,
                   tools_used := tools, ttl := env.cfg.cache_ttl }) := by
  refine ⟨?_, ?_, ?_, ?_, ?_⟩
  · intro hashQ q
    exact ⟨Nat.mod_lt _ (by norm_num), rfl⟩
  · intro hashQ
    have hcard : Fintype.card (Fin 10000) < Fintype.card (Fin 10001) := by
      simp only [Fintype.card_fin]
      norm_num
    obtain ⟨i, j, hne, heq⟩ := Fintype.exists_ne_map_eq_of_card_lt
      (fun i : Fin 10001 =>
        (⟨cacheSlot hashQ (List.replicate i.val 'a'),
          Nat.mod_lt _ (by norm_num)⟩ : Fin 10000)) hcard
    refine ⟨List.replicate i.val 'a', List.replicate j.val 'a', ?_, ?_⟩
    · intro h
      apply hne
      apply Fin.ext
      have hlen := congrArg List.length h
      rwa [List.length_replicate, List.length_replicate] at hlen
    · have hslot : cacheSlot hashQ (List.replicate i.val 'a')
          = cacheSlot hashQ (List.replicate j.val 'a') := congrArg Fin.val heq
      simp [cacheKey, hslot]
  · intro m op1 op2 hkey
    simp [applyStore, hkey]
  · intro env q resp tools op h
    unfold store_in_cache at h
    repeat' split at h
    any_goals exact Option.noConfusion h
    injection h with h'
    subst h'
    exact ⟨rfl, rfl⟩
  · intro env q resp tools emb h1 h2 h3 h4 h5
    simp [store_in_cache, h1, h2, h3, h4, h5]

theorem C8_witness :
    store_in_cache hitEnv ("show me open tickets".data) ("r".data) []
      = some { key := cacheKey hitEnv.hashQ ("show me open tickets".data),
               query := "show me open tickets".data, response := "r".data,
               tools_used := [], ttl := hitEnv.cfg.cache_ttl } :=
  C8_cache_key_slots_and_ttl.2.2.2.2 hitEnv _ _ [] [0] rfl (by decide)
    rfl rfl rfl

/-- One `generate_embedding` call cannot grow the cache beyond the
configured capacity. -/
theorem generate_embedding_length_le {V : Type} (md5 : List Char → List Char)
    (encode : List Char → Option V) (maxCacheSize : Nat)
    (cache : List (List Char × V)) (text : List Char) (v : V)
    (cache' : List (List Char × V)) (h : cache.length ≤ maxCacheSize)
    (hok : generate_embedding md5 encode maxCacheSize cache text
      = .ok (v, cache')) : cache'.length ≤ maxCacheSize := by
  unfold generate_embedding at hok
  dsimp only at hok
  repeat' split at hok
  any_goals exact Except.noConfusion hok
  all_goals
    (injection hok with h'
     injection h' with h1 h2
     subst h2
     try simp only [List.length_append, List.length_cons, List.length_nil] at *
     omega)

/-- C4: over any call sequence the embedding cache never exceeds its
capacity, and an insertion at capacity returns a cache that has dropped
exactly the oldest-inserted entry (the head) and appended the new one. -/
theorem C4_embedding_cache_capacity :
    (∀ (V : Type) (md5 : List Char → List Char)
        (encode : List Char → Option V) (maxCacheSize : Nat)
        (texts : List (List Char)) (cache : List (List Char × V)),
        cache.length ≤ maxCacheSize →
        (embedMany md5 encode maxCacheSize texts cache).length ≤ maxCacheSize) ∧
    (∀ (V : Type) (md5 : List Char → List Char)
        (encode : List Char → Option V) (maxCacheSize : Nat)
        (cache : List (List Char × V)) (text : List Char) (v : V),
        1 ≤ maxCacheSize → cache.length = maxCacheSize →
        (pyStrip text).isEmpty = false →
        cache.lookup (md5 text) = none →
        encode text = some v →
        generate_embedding md5 encode maxCacheSize cache text
          = .ok (v, cache.tail ++ [(md5 text, v)]) ∧
        (cache.tail ++ [(md5 text, v)]).length = maxCacheSize) := by
  constructor
  · intro V md5 encode maxCacheSize texts
    induction texts with
    | nil => intro cache h; simpa [embedMany] using h
    | cons t ts ih =>
      intro cache h
      unfold embedMany
      cases hg : generate_embedding md5 encode maxCacheSize cache t with
      | error e => exact ih cache h
      | ok p =>
        obtain ⟨v, cache'⟩ := p
        exact ih cache'
          (generate_embedding_length_le md5 encode maxCacheSize cache t v
            cache' h hg)
  · intro V md5 encode maxCacheSize cache text v hmax hlen hstrip hlook henc
    have htext : text.isEmpty = false := by
      cases text with
      | nil => simp [pyStrip] at hstrip
      | cons c cs => rfl
    obtain ⟨c0, rest, rfl⟩ : ∃ c0 rest, cache = c0 :: rest := by
      cases cache with
      | nil => simp at hlen; omega
      | cons c0 rest => exact ⟨c0, rest, rfl⟩
    constructor
    · simp [generate_embedding, htext, hstrip, hlook, henc, hlen]
    · simp at hlen ⊢
      omega

theorem C4_witness :
    generate_embedding (fun t => t) (fun _ => some 2) 2
        [("a".data, 0), ("b".data, 1)] ("c".data)
      = .ok (2, [("b".data, 1), ("c".data, 2)]) ∧
    (embedMany (fun t => t) (fun _ => some (0 : Nat)) 2
        ["a".data, "b".data, "c".data, "d".data] []).length ≤ 2 := by
  constructor
  · have h := (C4_embedding_cache_capacity.2 Nat (fun t => t) (fun _ => some 2)
      2 [("a".data, 0), ("b".data, 1)] ("c".data) 2 (by decide) (by decide)
      (by decide) (by decide) rfl).1
    simpa using h
  · exact C4_embedding_cache_capacity.1 Nat (fun t => t) (fun _ => some 0) 2
      ["a".data, "b".data, "c".data, "d".data] [] (by decide)

theorem spacedCat_head : ∀ ws : List (List Char), ∃ z, spacedCat ws = ' ' :: z
  | [] => ⟨[], rfl⟩
  | _ :: _ => ⟨_, rfl⟩

theorem spacedCat_eq (w : List Char) (ws : List (List Char)) :
    spacedCat (w :: ws) = ' ' :: (joinWords (w :: ws) ++ [' ']) := by
  induction ws generalizing w with
  | nil => rfl
  | cons v vs ih =>
    show ' ' :: (w ++ spacedCat (v :: vs))
        = ' ' :: (joinWords (w :: v :: vs) ++ [' '])
    rw [ih v, joinWords]
    simp

/-- A space-free prefix of `w ++ ' ' :: z` (with `w` space-free) is
already a prefix of `w`. -/
theorem prefix_word_of_append {kw w z : List Char}
    (hkw : ' ' ∉ kw) (hw : ' ' ∉ w)
    (h : kw <+: w ++ ' ' :: z) : kw <+: w := by
  induction kw generalizing w with
  | nil => exact List.nil_prefix
  | cons a as ih =>
    cases w with
    | nil =>
      rw [List.nil_append, List.cons_prefix_cons] at h
      exact absurd (h.1 ▸ List.mem_cons_self a as) hkw
    | cons b bs =>
      rw [List.cons_append, List.cons_prefix_cons] at h
      rw [List.cons_prefix_cons]
      refine ⟨h.1, ih (fun hm => hkw (List.mem_cons_of_mem _ hm))
        (fun hm => hw (List.mem_cons_of_mem _ hm)) h.2⟩

/-- If `t ++ ' ' :: u` is a prefix of `w ++ ' ' :: z` with `t, w`
space-free, the first words agree: `t = w`. -/
theorem eq_word_of_twoWord_isPrefixOf {t u w z : List Char}
    (ht : ' ' ∉ t) (hw : ' ' ∉ w)
    (h : (t ++ ' ' :: u) <+: (w ++ ' ' :: z)) : t = w := by
  induction t generalizing w with
  | nil =>
    cases w with
    | nil => rfl
    | cons b bs =>
      rw [List.nil_append, List.cons_append, List.cons_prefix_cons] at h
      exact absurd (h.1.symm ▸ List.mem_cons_self b bs) hw
  | cons a as ih =>
    cases w with
    | nil =>
      rw [List.cons_append, List.nil_append, List.cons_prefix_cons] at h
      exact absurd (h.1 ▸ List.mem_cons_self a as) ht
    | cons b bs =>
      rw [List.cons_append, List.cons_append, List.cons_prefix_cons] at h
      rw [h.1, ih (fun hm => ht (List.mem_cons_of_mem _ hm))
        (fun hm => hw (List.mem_cons_of_mem _ hm)) h.2]

/-- An occurrence of a needle starting with `' '` inside `w ++ z` with
`w` space-free lies entirely inside `z`. -/
theorem containsSub_space_skip {w z t : List Char} (hw : ' ' ∉ w)
    (h : containsSub (' ' :: t) (w ++ z) = true) :
    containsSub (' ' :: t) z = true := by
  induction w with
  | nil => exact h
  | cons c w' ih =>
    rw [List.cons_append, containsSub, Bool.or_eq_true] at h
    rcases h with h | h
    · simp only [ List.isPrefixOf_iff_prefix, List.cons_prefix_cons] at h
      exact absurd (h.1 ▸ List.mem_cons_self c w') hw
    · exact ih (fun hm => hw (List.mem_cons_of_mem _ hm)) h

/-- A needle of shape `' ' :: t ++ ' ' :: r` occurring in `spacedCat ws`
(all words space-free) pins `t` as one of the words. -/
theorem word_mem_of_containsSub_spacedCat {ws : List (List Char)}
    {t r : List Char} (ht : ' ' ∉ t) (hws : ∀ w ∈ ws, ' ' ∉ w)
    (h : containsSub (' ' :: (t ++ ' ' :: r)) (spacedCat ws) = true) :
    t ∈ ws := by
  induction ws with
  | nil =>
    rw [spacedCat, containsSub, containsSub, Bool.or_eq_true] at h
    rcases h with h | h
    · simp only [ List.isPrefixOf_iff_prefix, List.cons_prefix_cons] at h
      rcases h with ⟨-, h⟩
      rw [List.prefix_nil] at h
      exact absurd h (by simp)
    · simp [List.isEmpty_iff] at h
  | cons w ws' ih =>
    rw [spacedCat, containsSub, Bool.or_eq_true] at h
    rcases h with h | h
    · simp only [ List.isPrefixOf_iff_prefix, List.cons_prefix_cons] at h
      obtain ⟨z, hz⟩ := spacedCat_head ws'
      rw [hz] at h
      have := eq_word_of_twoWord_isPrefixOf ht
        (hws w (List.mem_cons_self _ _)) h.2
      exact this ▸ List.mem_cons_self _ _
    · have h' := containsSub_space_skip (hws w (List.mem_cons_self _ _)) h
      exact List.mem_cons_of_mem _
        (ih (fun w' hw' => hws w' (List.mem_cons_of_mem _ hw')) h')

/-- A space-free prefix of a joined word sequence is a prefix of the
first word. -/
theorem prefix_head_of_prefix_joinWords {kw w : List Char}
    {ws : List (List Char)} (hkw : ' ' ∉ kw) (hw : ' ' ∉ w)
    (h : kw <+: joinWords (w :: ws)) : kw <+: w := by
  cases ws with
  | nil => exact h
  | cons v vs =>
    rw [joinWords] at h
    exact prefix_word_of_append hkw hw h

/-- A two-word prefix of a joined sequence of space-free words pins its
first word as the head word. -/
theorem head_eq_of_twoWord_prefix_joinWords {t u w : List Char}
    {ws : List (List Char)} (ht : ' ' ∉ t) (hw : ' ' ∉ w)
    (h : (t ++ ' ' :: u) <+: joinWords (w :: ws)) : t = w := by
  cases ws with
  | nil =>
    rw [joinWords] at h
    exact absurd (h.subset (by simp)) hw
  | cons v vs =>
    rw [joinWords] at h
    exact eq_word_of_twoWord_isPrefixOf ht hw h

/-- Characters of a joined word sequence are spaces or characters of one
of the words. -/
theorem mem_joinWords {c : Char} :
    ∀ ws : List (List Char), c ∈ joinWords ws →
      c = ' ' ∨ ∃ w ∈ ws, c ∈ w
  | [] => by simp [joinWords]
  | [w] => by
    intro h
    exact Or.inr ⟨w, List.mem_cons_self _ _, h⟩
  | w :: v :: vs => by
    intro h
    rw [joinWords] at h
    rcases List.mem_append.mp h with h | h
    · exact Or.inr ⟨w, List.mem_cons_self _ _, h⟩
    · rcases List.mem_cons.mp h with h | h
      · exact Or.inl h
      · rcases mem_joinWords (v :: vs) h with h | ⟨w', hw', hc⟩
        · exact Or.inl h
        · exact Or.inr ⟨w', List.mem_cons_of_mem _ hw', hc⟩

theorem joinWords_no_qmark {ws : List (List Char)}
    (hmem : ∀ w ∈ ws, w ∈ writeKeywordWords) :
    endsWithQmark (joinWords ws) = false := by
  rw [endsWithQmark, beq_eq_false_iff_ne]
  intro hlast
  have hq : '?' ∈ joinWords ws := List.mem_of_mem_getLast? (hlast ▸ rfl)
  rcases mem_joinWords ws hq with h | ⟨w, hw, hc⟩
  · exact absurd h (by decide)
  · have : ∀ w ∈ writeKeywordWords, '?' ∉ w := by decide
    exact this w (hmem w hw) hc

/-- Dispatch for a single-word info keyword over a query consisting only
of write-keyword words: neither the startswith check nor the
separate-word check fires. -/
theorem single_kw_no_match (kw : List Char) {ws : List (List Char)}
    (hkw : ' ' ∉ kw) (hne : ws ≠ [])
    (hmem : ∀ w ∈ ws, w ∈ writeKeywordWords)
    (hpre : ∀ w ∈ writeKeywordWords, kw.isPrefixOf w = false)
    (hnm : kw ∉ writeKeywordWords) :
    (kw.isPrefixOf (joinWords ws) ||
      containsSub (' ' :: (kw ++ [' ']))
        (' ' :: (joinWords ws ++ [' ']))) = false := by
  obtain ⟨w0, ws', rfl⟩ : ∃ w0 ws', ws = w0 :: ws' := by
    cases ws with
    | nil => exact absurd rfl hne
    | cons w0 ws' => exact ⟨w0, ws', rfl⟩
  have hspace : ∀ w ∈ w0 :: ws', ' ' ∉ w := by
    intro w hw
    have : ∀ w ∈ writeKeywordWords, ' ' ∉ w := by decide
    exact this w (hmem w hw)
  rw [Bool.or_eq_false_iff]
  constructor
  · rw [← Bool.not_eq_true]
    intro h
    rw [ List.isPrefixOf_iff_prefix] at h
    have hp := prefix_head_of_prefix_joinWords hkw
      (hspace w0 (List.mem_cons_self _ _)) h
    rw [← List.isPrefixOf_iff_prefix] at hp
    rw [hpre w0 (hmem w0 (List.mem_cons_self _ _))] at hp
    exact Bool.noConfusion hp
  · rw [← Bool.not_eq_true]
    intro h
    rw [← spacedCat_eq] at h
    have : kw ∈ w0 :: ws' :=
      word_mem_of_containsSub_spacedCat hkw hspace h
    exact hnm (hmem kw this)

/-- Dispatch for a two-word info keyword (`tell me`, `give me`,
`look up`). -/
theorem double_kw_no_match (t u : List Char) {ws : List (List Char)}
    (ht : ' ' ∉ t) (hne : ws ≠ [])
    (hmem : ∀ w ∈ ws, w ∈ writeKeywordWords)
    (hnm : t ∉ writeKeywordWords) :
    ((t ++ ' ' :: u).isPrefixOf (joinWords ws) ||
      containsSub (' ' :: ((t ++ ' ' :: u) ++ [' ']))
        (' ' :: (joinWords ws ++ [' ']))) = false := by
  obtain ⟨w0, ws', rfl⟩ : ∃ w0 ws', ws = w0 :: ws' := by
    cases ws with
    | nil => exact absurd rfl hne
    | cons w0 ws' => exact ⟨w0, ws', rfl⟩
  have hspace : ∀ w ∈ w0 :: ws', ' ' ∉ w := by
    intro w hw
    have : ∀ w ∈ writeKeywordWords, ' ' ∉ w := by decide
    exact this w (hmem w hw)
  rw [Bool.or_eq_false_iff]
  constructor
  · rw [← Bool.not_eq_true]
    intro h
    rw [ List.isPrefixOf_iff_prefix] at h
    have := head_eq_of_twoWord_prefix_joinWords ht
      (hspace w0 (List.mem_cons_self _ _)) h
    exact hnm (this ▸ hmem w0 (List.mem_cons_self _ _))
  · rw [← Bool.not_eq_true]
    intro h
    rw [← spacedCat_eq] at h
    have hshape : (' ' :: ((t ++ ' ' :: u) ++ [' ']))
        = ' ' :: (t ++ ' ' :: (u ++ [' '])) := by simp
    rw [hshape] at h
    have : t ∈ w0 :: ws' :=
      word_mem_of_containsSub_spacedCat ht hspace h
    exact hnm (hmem t this)

/-- Dropping leading whitespace keeps a trailing question mark. -/
theorem getLast?_dropWhile_of_qmark (l : List Char)
    (h : l.getLast? = some '?') :
    (l.dropWhile isPySpace).getLast? = some '?' := by
  induction l with
  | nil => simp at h
  | cons c cs ih =>
    cases cs with
    | nil =>
      simp at h
      subst h
      rw [List.dropWhile_cons_of_neg (by decide)]
      rfl
    | cons d ds =>
      have hlast : (d :: ds).getLast? = some '?' := by
        rw [List.getLast?_cons_cons] at h
        exact h
      by_cases hc : isPySpace c
      · rw [List.dropWhile_cons_of_pos hc]
        exact ih hlast
      · rw [List.dropWhile_cons_of_neg hc, List.getLast?_cons_cons]
        exact hlast

/-- `str.strip` keeps a trailing question mark. -/
theorem pyStrip_getLast?_of_qmark (l : List Char)
    (h : l.getLast? = some '?') : (pyStrip l).getLast? = some '?' := by
  have h1 := getLast?_dropWhile_of_qmark l h
  have hrev : (l.dropWhile isPySpace).reverse.head? = some '?' := by
    rw [List.head?_reverse]
    exact h1
  obtain ⟨t, ht⟩ : ∃ t, (l.dropWhile isPySpace).reverse = '?' :: t := by
    cases hm2 : (l.dropWhile isPySpace).reverse with
    | nil => rw [hm2] at hrev; exact Option.noConfusion hrev
    | cons a t =>
      rw [hm2] at hrev
      simp at hrev
      exact ⟨t, by rw [hrev]⟩
  rw [pyStrip, ht, List.dropWhile_cons_of_neg (by decide), ← ht,
    List.reverse_reverse]
  exact h1

/-- C5: `is_information_request` is true for every input ending in `?`
and for every input containing an info keyword as a separate
space-delimited word (case-insensitively, outer whitespace stripped);
it is false for every input consisting only of write-operation keyword
words. -/
theorem C5_is_information_request_spec (q : List Char) :
    (q.getLast? = some '?' → is_information_request q = true) ∧
    (∀ kw ∈ infoKeywords,
        containsSub (' ' :: (kw ++ [' ']))
          (' ' :: (pyStrip (pyLower q) ++ [' '])) = true →
        is_information_request q = true) ∧
    (∀ ws : List (List Char), ws ≠ [] →
        (∀ w ∈ ws, w ∈ writeKeywordWords) →
        pyStrip (pyLower q) = joinWords ws →
        is_information_request q = false) := by
  refine ⟨?_, ?_, ?_⟩
  · intro h
    have hlow : (pyLower q).getLast? = some '?' := by
      rw [pyLower, List.getLast?_map, h]
      rfl
    have hstrip := pyStrip_getLast?_of_qmark _ hlow
    rw [is_information_request]
    rw [endsWithQmark, hstrip]
    simp
  · intro kw hkw h
    rw [is_information_request]
    rw [Bool.or_eq_true]
    left
    rw [List.any_eq_true]
    refine ⟨kw, hkw, ?_⟩
    rw [h]
    simp
  · intro ws hne hmem hql
    rw [is_information_request]
    rw [hql, Bool.or_eq_false_iff]
    refine ⟨?_, joinWords_no_qmark hmem⟩
    rw [List.any_eq_false]
    intro kw hkw
    rw [Bool.not_eq_true]
    simp only [infoKeywords, List.mem_cons, List.not_mem_nil, or_false] at hkw
    rcases hkw with rfl | rfl | rfl | rfl | rfl | rfl | rfl | rfl | rfl | rfl |
      rfl | rfl | rfl | rfl | rfl | rfl | rfl | rfl
    case inl => exact single_kw_no_match _ (by decide) hne hmem (by decide) (by decide)
    all_goals try exact single_kw_no_match _ (by decide) hne hmem (by decide) (by decide)
    · show ((("tell".data ++ ' ' :: "me".data).isPrefixOf (joinWords ws)) ||
        containsSub (' ' :: (("tell".data ++ ' ' :: "me".data) ++ [' ']))
          (' ' :: (joinWords ws ++ [' ']))) = false
      exact double_kw_no_match "tell".data "me".data (by decide) hne hmem (by decide)
    · show ((("give".data ++ ' ' :: "me".data).isPrefixOf (joinWords ws)) ||
        containsSub (' ' :: (("give".data ++ ' ' :: "me".data) ++ [' ']))
          (' ' :: (joinWords ws ++ [' ']))) = false
      exact double_kw_no_match "give".data "me".data (by decide) hne hmem (by decide)
    · show ((("look".data ++ ' ' :: "up".data).isPrefixOf (joinWords ws)) ||
        containsSub (' ' :: (("look".data ++ ' ' :: "up".data) ++ [' ']))
          (' ' :: (joinWords ws ++ [' ']))) = false
      exact double_kw_no_match "look".data "up".data (by decide) hne hmem (by decide)

theorem C5_witness :
    is_information_request ("Show me the tickets?".data) = true ∧
    is_information_request ("status report: get the logs".data) = true ∧
    is_information_request ("create update delete".data) = false :=
  ⟨(C5_is_information_request_spec _).1 (by decide),
   (C5_is_information_request_spec _).2.1 ("get".data) (by decide) (by decide),
   (C5_is_information_request_spec _).2.2
     ["create".data, "update".data, "delete".data]
     (by decide) (by decide) (by decide)⟩
